import Mathlib

/-!
Shallow embedding of the Storage Gateway Service (`src/app.py`): a Flask app
exposing `/list`, `/upload`, `/download`, `/delete`, `/health` and `/` over a
Google Cloud Storage bucket.

Modelling conventions:
* The bucket is an association list from object key to content.
* Outcomes of external calls (client construction, `blob.exists()`,
  `download_as_text`, `delete`, `upload_from_file`, `list_blobs`,
  `list_buckets`, the metadata HTTP query) are inputs to the handlers,
  packaged in a `World`: a raised Python exception is an `Except.error` /
  `Option.some` error field, normal completion is `Except.ok` / `none`.
* A handler returns an `HResult`: HTTP status, body, the bucket after the
  request, and the trace of backend operations it performed.
* Python truthiness of `request.args.get(...)` (`if not filename`) is
  `none` or `some ""`.
-/

namespace GcsDemo

/-- An object-storage bucket: association list from object key to content.
Lookup takes the first binding for a key. -/
def bucketGet : List (String × String) → String → Option String
  | [], _ => none
  | (k, v) :: rest, key => if k == key then some v else bucketGet rest key

/-- `blob.exists()` for a well-behaved backend: the key is present. -/
def bucketHas (b : List (String × String)) (key : String) : Bool :=
  (bucketGet b key).isSome

/-- `blob.upload_from_file`: GCS stores the stream under the key, silently
overwriting any existing object of that key. -/
def bucketStore (b : List (String × String)) (key content : String) :
    List (String × String) :=
  (key, content) :: b.filter (fun kv => !(kv.fst == key))

/-- `blob.delete()`: the object of that key is removed. -/
def bucketDelete (b : List (String × String)) (key : String) :
    List (String × String) :=
  b.filter (fun kv => !(kv.fst == key))

/-- `request.args.get(k)` / `request.form.get(k)`: first value bound to `k`,
`none` when the parameter is absent. -/
def getParam : List (String × String) → String → Option String
  | [], _ => none
  | (k, v) :: rest, key => if k == key then some v else getParam rest key

/-- `request.files[k]` : the multipart part named `k`, as
(part name, uploaded filename, content); `none` models `k not in request.files`. -/
def getFilePart : List (String × String × String) → String →
    Option (String × String)
  | [], _ => none
  | (part, fn, content) :: rest, key =>
      if part == key then some (fn, content) else getFilePart rest key

/-- An incoming HTTP request: query parameters (`request.args`), form fields
(`request.form`) and multipart file parts (`request.files`). -/
structure Req where
  args : List (String × String)
  form : List (String × String)
  files : List (String × String × String)
deriving Repr, DecidableEq

/-- Backend operations a handler can perform, for tracing. -/
inductive BackendOp where
  | acquireClient
  | existsCheck (key : String)
  | download (key : String)
  | delete (key : String)
  | upload (key : String)
  | listBlobs
  | listBuckets
deriving Repr, DecidableEq

/-- Response bodies: a rendered home-template page, a plain-text body
(`return "msg", code`), an f-string HTML body, or the `/health` JSON object. -/
inductive Body where
  | page (identity bucket_name message message_class : String)
         (files : List String)
  | text (s : String)
  | html (s : String)
  | json (status : String) (authenticated : Option Bool)
         (error : Option String)
deriving Repr, DecidableEq

instance exceptDecEq {ε α : Type} [DecidableEq ε] [DecidableEq α] :
    DecidableEq (Except ε α) := fun x y =>
  match x, y with
  | Except.ok a, Except.ok b =>
      if h : a = b then isTrue (by rw [h])
      else isFalse (by intro he; cases he; exact h rfl)
  | Except.ok _, Except.error _ => isFalse (by intro h; cases h)
  | Except.error _, Except.ok _ => isFalse (by intro h; cases h)
  | Except.error a, Except.error b =>
      if h : a = b then isTrue (by rw [h])
      else isFalse (by intro he; cases he; exact h rfl)

/-- The external world a single request observes: outcome of
`storage.Client()` in `get_storage_client`, the bucket contents, whether each
backend call raises, outcomes of the identity resolver's own client
construction (`storage.Client()` + `.project`) and of the metadata HTTP query
(status code and text when it does not raise), and the configured bucket name. -/
structure World where
  ctor : Except String Unit
  bucket : List (String × String)
  existsErr : Option String
  downloadErr : Option String
  deleteErr : Option String
  uploadErr : Option String
  listErr : Option (Bool × String)
  probeErr : Option String
  identCtor : Except String String
  metadata : Except String (Nat × String)
  bucket_name : String
deriving Repr, DecidableEq

/-- Result of handling one request: HTTP status, body, bucket after the
request, and the backend operations performed. -/
structure HResult where
  status : Nat
  body : Body
  bucket : List (String × String)
  ops : List BackendOp
deriving Repr, DecidableEq

/-- `get_storage_client` (src/app.py:96): returns the client from
`storage.Client()`, or `None` when construction raised; never propagates. -/
def get_storage_client : Except String Unit → Option Unit
  | Except.ok _ => some ()
  | Except.error _ => none

/-- `get_identity` (src/app.py:109): constructs its own client and reads
`.project`; queries the metadata endpoint for the service-account email with
a 5 second timeout. Status 200 returns the response text; any other status
returns the project descriptor; any exception (client construction, project
access, or a raising metadata query) returns the fixed sentinel. -/
def get_identity (identCtor : Except String String)
    (metadata : Except String (Nat × String)) : String :=
  match identCtor with
  | Except.error _ => "Unknown (Not properly authenticated)"
  | Except.ok project =>
    match metadata with
    | Except.error _ => "Unknown (Not properly authenticated)"
    | Except.ok (status, text) =>
        if status == 200 then text
        else "Authenticated (Project: " ++ project ++ ")"

/-- Body of the `/download` success f-string (src/app.py:243). -/
def downloadPageHtml (filename content : String) : String :=
  "\n        <html>\n        <body>\n            <h2>File Content: "
    ++ filename
    ++ "</h2>\n            <pre>"
    ++ content
    ++ "</pre>\n            <a href=\"/\">Back to Home</a>\n        </body>\n        </html>\n        "

/-- Body of the `/upload` success f-string (src/app.py:209). -/
def uploadSuccessHtml (filename bucket_name : String) : String :=
  "\n        <html>\n        <body>\n            <h2>Upload Successful!</h2>\n            <p>File "
    ++ filename
    ++ " uploaded to "
    ++ bucket_name
    ++ "</p>\n            <a href=\"/\">Back to Home</a>\n        </body>\n        </html>\n        "

/-- Body of the `/delete` success f-string (src/app.py:277). -/
def deleteSuccessHtml (filename bucket_name : String) : String :=
  "\n        <html>\n        <body>\n            <h2>Delete Successful!</h2>\n            <p>File "
    ++ filename
    ++ " deleted from "
    ++ bucket_name
    ++ "</p>\n            <a href=\"/\">Back to Home</a>\n        </body>\n        </html>\n        "

/-- `GET /download` handler `download_file` (src/app.py:222). -/
def download_file (w : World) (req : Req) : HResult :=
  match getParam req.args "filename" with
  | none => ⟨400, Body.text "Filename required", w.bucket, []⟩
  | some filename =>
    if filename == "" then
      ⟨400, Body.text "Filename required", w.bucket, []⟩
    else
      match get_storage_client w.ctor with
      | none => ⟨500, Body.text "Storage client error", w.bucket,
                 [BackendOp.acquireClient]⟩
      | some _ =>
        match w.existsErr with
        | some e =>
            ⟨500, Body.text ("Error downloading file: " ++ e), w.bucket,
             [BackendOp.acquireClient, BackendOp.existsCheck filename]⟩
        | none =>
          if bucketHas w.bucket filename then
            match w.downloadErr with
            | some e =>
                ⟨500, Body.text ("Error downloading file: " ++ e), w.bucket,
                 [BackendOp.acquireClient, BackendOp.existsCheck filename,
                  BackendOp.download filename]⟩
            | none =>
                ⟨200,
                 Body.html (downloadPageHtml filename
                   ((bucketGet w.bucket filename).getD "")),
                 w.bucket,
                 [BackendOp.acquireClient, BackendOp.existsCheck filename,
                  BackendOp.download filename]⟩
          else
            ⟨404, Body.text ("File " ++ filename ++ " not found"), w.bucket,
             [BackendOp.acquireClient, BackendOp.existsCheck filename]⟩

/-- `POST /delete` handler `delete_file` (src/app.py:256). The filename is
read from `request.form` only. -/
def delete_file (w : World) (req : Req) : HResult :=
  match getParam req.form "filename" with
  | none => ⟨400, Body.text "Filename required", w.bucket, []⟩
  | some filename =>
    if filename == "" then
      ⟨400, Body.text "Filename required", w.bucket, []⟩
    else
      match get_storage_client w.ctor with
      | none => ⟨500, Body.text "Storage client error", w.bucket,
                 [BackendOp.acquireClient]⟩
      | some _ =>
        match w.existsErr with
        | some e =>
            ⟨500, Body.text ("Error deleting file: " ++ e), w.bucket,
             [BackendOp.acquireClient, BackendOp.existsCheck filename]⟩
        | none =>
          if bucketHas w.bucket filename then
            match w.deleteErr with
            | some e =>
                ⟨500, Body.text ("Error deleting file: " ++ e), w.bucket,
                 [BackendOp.acquireClient, BackendOp.existsCheck filename,
                  BackendOp.delete filename]⟩
            | none =>
                ⟨200, Body.html (deleteSuccessHtml filename w.bucket_name),
                 bucketDelete w.bucket filename,
                 [BackendOp.acquireClient, BackendOp.existsCheck filename,
                  BackendOp.delete filename]⟩
          else
            ⟨404, Body.text ("File " ++ filename ++ " not found"), w.bucket,
             [BackendOp.acquireClient, BackendOp.existsCheck filename]⟩

/-- `POST /upload` handler `upload_file` (src/app.py:187). -/
def upload_file (w : World) (req : Req) : HResult :=
  match getFilePart req.files "file" with
  | none => ⟨400, Body.text "No file part", w.bucket, []⟩
  | some (filename, content) =>
    if filename == "" then
      ⟨400, Body.text "No selected file", w.bucket, []⟩
    else
      match get_storage_client w.ctor with
      | none => ⟨500, Body.text "Storage client error", w.bucket,
                 [BackendOp.acquireClient]⟩
      | some _ =>
        match w.uploadErr with
        | some e =>
            ⟨500, Body.text ("Error uploading file: " ++ e), w.bucket,
             [BackendOp.acquireClient, BackendOp.upload filename]⟩
        | none =>
            ⟨200, Body.html (uploadSuccessHtml filename w.bucket_name),
             bucketStore w.bucket filename content,
             [BackendOp.acquireClient, BackendOp.upload filename]⟩

/-- `GET /list` handler `list_objects` (src/app.py:140). Every branch renders
the home template (Flask default status 200). -/
def list_objects (w : World) : HResult :=
  match get_storage_client w.ctor with
  | none =>
      ⟨200,
       Body.page (get_identity w.identCtor w.metadata) w.bucket_name
         "Failed to create storage client. Check Workload Identity configuration."
         "error" [],
       w.bucket, [BackendOp.acquireClient]⟩
  | some _ =>
    match w.listErr with
    | some (isApiError, e) =>
        if isApiError then
          ⟨200,
           Body.page (get_identity w.identCtor w.metadata) w.bucket_name
             ("GCS Error: " ++ e) "error" [],
           w.bucket, [BackendOp.acquireClient, BackendOp.listBlobs]⟩
        else
          ⟨200,
           Body.page (get_identity w.identCtor w.metadata) w.bucket_name
             ("Error: " ++ e) "error" [],
           w.bucket, [BackendOp.acquireClient, BackendOp.listBlobs]⟩
    | none =>
        let files := w.bucket.map Prod.fst
        ⟨200,
         Body.page (get_identity w.identCtor w.metadata) w.bucket_name
           ("Found " ++ toString files.length ++ " files in bucket")
           "success" files,
         w.bucket, [BackendOp.acquireClient, BackendOp.listBlobs]⟩

/-- `GET /health` handler `health` (src/app.py:290). -/
def health (w : World) : HResult :=
  match get_storage_client w.ctor with
  | some _ =>
    match w.probeErr with
    | none =>
        ⟨200, Body.json "healthy" (some true) none, w.bucket,
         [BackendOp.acquireClient, BackendOp.listBuckets]⟩
    | some e =>
        ⟨500, Body.json "unhealthy" none (some e), w.bucket,
         [BackendOp.acquireClient, BackendOp.listBuckets]⟩
  | none =>
      ⟨500, Body.json "unhealthy" (some false) none, w.bucket,
       [BackendOp.acquireClient]⟩

/-- An operation trace contains no object download and no object delete. -/
def noDownloadDelete (ops : List BackendOp) : Bool :=
  ops.all fun op =>
    match op with
    | BackendOp.download _ => false
    | BackendOp.delete _ => false
    | _ => true

theorem bucketGet_store_self (b : List (String × String)) (k v : String) :
    bucketGet (bucketStore b k v) k = some v := by
  simp [bucketStore, bucketGet]

theorem bucketGet_delete_self (b : List (String × String)) (k : String) :
    bucketGet (bucketDelete b k) k = none := by
  induction b with
  | nil => rfl
  | cons kv rest ih =>
    obtain ⟨k1, v1⟩ := kv
    cases h : k1 == k with
    | true => simpa [bucketDelete, List.filter_cons, h] using ih
    | false => simpa [bucketDelete, List.filter_cons, h, bucketGet] using ih

theorem bucketHas_delete_self (b : List (String × String)) (k : String) :
    bucketHas (bucketDelete b k) k = false := by
  simp [bucketHas, bucketGet_delete_self]

/-- A concrete healthy world, used by the witnesses. -/
def wOk : World :=
  ⟨Except.ok (), [("a.txt", "alpha")], none, none, none, none, none, none,
   Except.ok "demo-project", Except.ok (200, "sa-demo"), "demo-bucket"⟩

/-- A concrete world in which `storage.Client()` raises inside
`get_storage_client`. -/
def wBad : World := { wOk with ctor := Except.error "boom" }

/-- A download request for `a.txt`. -/
def dlReq : Req := ⟨[("filename", "a.txt")], [], []⟩

/-- A delete request for `a.txt`. -/
def delReq : Req := ⟨[], [("filename", "a.txt")], []⟩

/-- C9: `get_storage_client` is total: for every outcome of `storage.Client()`
it returns a client or `None` and never propagates; consequently every route
reaches its explicit `None`-check branch when construction fails
(`/download` and `/delete` return 500 "Storage client error", `/list` still
renders a 200 page, `/health` reports 500). -/
theorem get_storage_client_total (o : Except String Unit) (w : World)
    (req : Req) :
    (get_storage_client o = none ∨ get_storage_client o = some ()) ∧
    (∀ e, o = Except.error e → get_storage_client o = none) ∧
    (o = Except.ok () → get_storage_client o = some ()) ∧
    (∀ e fn, w.ctor = Except.error e → getParam req.args "filename" = some fn →
      fn ≠ "" →
      (download_file w req).status = 500 ∧
      (download_file w req).body = Body.text "Storage client error") ∧
    (∀ e fn, w.ctor = Except.error e → getParam req.form "filename" = some fn →
      fn ≠ "" →
      (delete_file w req).status = 500 ∧
      (delete_file w req).body = Body.text "Storage client error") ∧
    (∀ e, w.ctor = Except.error e →
      (list_objects w).status = 200 ∧ (health w).status = 500) := by
  refine ⟨?_, ?_, ?_, ?_, ?_, ?_⟩
  · cases o <;> simp [get_storage_client]
  · intro e he; rw [he]; rfl
  · intro he; rw [he]; rfl
  · intro e fn hc hget hne
    simp [download_file, hget, hne, hc, get_storage_client]
  · intro e fn hc hget hne
    simp [delete_file, hget, hne, hc, get_storage_client]
  · intro e hc
    simp [list_objects, health, hc, get_storage_client]

theorem get_storage_client_total_witness :
    (download_file wBad dlReq).status = 500 ∧
    (delete_file wBad delReq).status = 500 ∧
    (list_objects wBad).status = 200 :=
  ⟨((get_storage_client_total (Except.error "boom") wBad dlReq).2.2.2.1
      "boom" "a.txt" rfl (by decide) (by decide)).1,
   ((get_storage_client_total (Except.error "boom") wBad delReq).2.2.2.2.1
      "boom" "a.txt" rfl (by decide) (by decide)).1,
   ((get_storage_client_total (Except.error "boom") wBad delReq).2.2.2.2.2
      "boom" rfl).1⟩

/-- C10: an empty-string `filename` is treated like an absent one: both
`/download` (query) and `/delete` (form) return 400 with no backend
operation performed, because `if not filename` is a Python truthiness
check. -/
theorem empty_filename_400 (w : World) (req1 req2 : Req)
    (h1 : getParam req1.args "filename" = some "")
    (h2 : getParam req2.form "filename" = some "") :
    (download_file w req1).status = 400 ∧ (download_file w req1).ops = [] ∧
    (delete_file w req2).status = 400 ∧ (delete_file w req2).ops = [] := by
  refine ⟨?_, ?_, ?_, ?_⟩ <;> simp [download_file, delete_file, h1, h2]

theorem empty_filename_400_witness :
    (download_file wOk ⟨[("filename", "")], [], []⟩).status = 400 ∧
    (delete_file wOk ⟨[], [("filename", "")], []⟩).status = 400 := by
  have h := empty_filename_400 wOk ⟨[("filename", "")], [], []⟩
    ⟨[], [("filename", "")], []⟩ (by decide) (by decide)
  exact ⟨h.1, h.2.2.1⟩

/-- C3: `/upload` with no multipart part named `file`, or with a `file` part
whose filename is empty, returns exactly 400 with a plain-text body, for
every world and every other parameter, performing no backend operation and
acquiring no storage client. -/
theorem upload_missing_file_400 (w : World) (req : Req) :
    (getFilePart req.files "file" = none →
      (upload_file w req).status = 400 ∧
      (upload_file w req).body = Body.text "No file part" ∧
      (upload_file w req).ops = [] ∧
      (upload_file w req).bucket = w.bucket) ∧
    (∀ content, getFilePart req.files "file" = some ("", content) →
      (upload_file w req).status = 400 ∧
      (upload_file w req).body = Body.text "No selected file" ∧
      (upload_file w req).ops = [] ∧
      (upload_file w req).bucket = w.bucket) := by
  constructor
  · intro h; simp [upload_file, h]
  · intro content h; simp [upload_file, h]

theorem upload_missing_file_400_witness :
    (upload_file wBad ⟨[("other", "x")], [], []⟩).status = 400 ∧
    (upload_file wOk ⟨[], [], [("file", "", "data")]⟩).status = 400 :=
  ⟨((upload_missing_file_400 wBad ⟨[("other", "x")], [], []⟩).1
      (by decide)).1,
   ((upload_missing_file_400 wOk ⟨[], [], [("file", "", "data")]⟩).2
      "data" (by decide)).1⟩

/-- C6: `/delete` reads its filename exclusively from the form body and
`/download` exclusively from the query string (each handler's result is
invariant under the other parameter sources); a missing `filename` query
parameter makes `/download` return 400, and a missing `filename` form field
makes `/delete` return 400 even when a query parameter of that name is
present. -/
theorem filename_source_routes (w : World) :
    (∀ a1 a2 f fi1 fi2,
      delete_file w ⟨a1, f, fi1⟩ = delete_file w ⟨a2, f, fi2⟩) ∧
    (∀ a f1 f2 fi1 fi2,
      download_file w ⟨a, f1, fi1⟩ = download_file w ⟨a, f2, fi2⟩) ∧
    (∀ req, getParam req.args "filename" = none →
      (download_file w req).status = 400) ∧
    (∀ req, getParam req.form "filename" = none →
      (delete_file w req).status = 400) := by
  refine ⟨fun _ _ _ _ _ => rfl, fun _ _ _ _ _ => rfl, ?_, ?_⟩
  · intro req h; simp [download_file, h]
  · intro req h; simp [delete_file, h]

theorem filename_source_routes_witness :
    (delete_file wOk ⟨[("filename", "a.txt")], [], []⟩).status = 400 ∧
    (download_file wOk ⟨[], [("filename", "a.txt")], []⟩).status = 400 :=
  ⟨(filename_source_routes wOk).2.2.2 ⟨[("filename", "a.txt")], [], []⟩
      (by decide),
   (filename_source_routes wOk).2.2.1 ⟨[], [("filename", "a.txt")], []⟩
      (by decide)⟩

/-- C5: when storage-client acquisition fails, `/list` returns HTTP 200 with
a rendered page carrying an error message and an empty object list, not an
HTTP error status. -/
theorem list_client_unavailable (w : World) (e : String)
    (h : w.ctor = Except.error e) :
    (list_objects w).status = 200 ∧
    (list_objects w).body =
      Body.page (get_identity w.identCtor w.metadata) w.bucket_name
        "Failed to create storage client. Check Workload Identity configuration."
        "error" [] := by
  simp [list_objects, h, get_storage_client]

theorem list_client_unavailable_witness :
    (list_objects wBad).status = 200 :=
  (list_client_unavailable wBad "boom" rfl).1

/-- C1: with the storage client acquired and a well-behaved existence check,
`/download` (query filename) and `/delete` (form filename) on a key absent
from the bucket return exactly 404, perform no download and no delete
operation on the backend, and leave the bucket unchanged. -/
theorem not_found_404 (w : World) (reqD reqX : Req) (fn gn : String)
    (hD : getParam reqD.args "filename" = some fn) (hfn : fn ≠ "")
    (hX : getParam reqX.form "filename" = some gn) (hgn : gn ≠ "")
    (hc : w.ctor = Except.ok ()) (hex : w.existsErr = none)
    (h1 : bucketHas w.bucket fn = false) (h2 : bucketHas w.bucket gn = false) :
    ((download_file w reqD).status = 404 ∧
      noDownloadDelete (download_file w reqD).ops = true ∧
      (download_file w reqD).bucket = w.bucket) ∧
    ((delete_file w reqX).status = 404 ∧
      noDownloadDelete (delete_file w reqX).ops = true ∧
      (delete_file w reqX).bucket = w.bucket) := by
  constructor
  · simp [download_file, hD, hfn, hc, get_storage_client, hex, h1,
      noDownloadDelete]
  · simp [delete_file, hX, hgn, hc, get_storage_client, hex, h2,
      noDownloadDelete]

theorem not_found_404_witness :
    (download_file wOk ⟨[("filename", "missing.txt")], [], []⟩).status = 404 ∧
    (delete_file wOk ⟨[], [("filename", "missing.txt")], []⟩).status = 404 := by
  have h := not_found_404 wOk ⟨[("filename", "missing.txt")], [], []⟩
    ⟨[], [("filename", "missing.txt")], []⟩ "missing.txt" "missing.txt"
    (by decide) (by decide) (by decide) (by decide) rfl rfl
    (by decide) (by decide)
  exact ⟨h.1.1, h.2.1⟩

/-- C2: `/health` returns 200 with JSON status "healthy" and
authenticated true exactly when client construction succeeds and the
one-bucket probe raises nothing; a failed construction gives 500 with
authenticated false; a raising probe gives 500 with the error field. -/
theorem health_contract (w : World) :
    ((health w).status = 200 ∧
        (health w).body = Body.json "healthy" (some true) none ↔
      w.ctor = Except.ok () ∧ w.probeErr = none) ∧
    (∀ e, w.ctor = Except.error e →
      (health w).status = 500 ∧
      (health w).body = Body.json "unhealthy" (some false) none) ∧
    (∀ e, w.ctor = Except.ok () → w.probeErr = some e →
      (health w).status = 500 ∧
      (health w).body = Body.json "unhealthy" none (some e)) := by
  refine ⟨?_, ?_, ?_⟩
  · constructor
    · intro h
      cases hc : w.ctor with
      | error e => simp [health, get_storage_client, hc] at h
      | ok u =>
        cases u
        cases hp : w.probeErr with
        | none => exact ⟨rfl, rfl⟩
        | some e => simp [health, get_storage_client, hc, hp] at h
    · rintro ⟨hc, hp⟩
      simp [health, get_storage_client, hc, hp]
  · intro e hc
    simp [health, get_storage_client, hc]
  · intro e hc hp
    simp [health, get_storage_client, hc, hp]

theorem health_contract_witness :
    (health wOk).status = 200 ∧ (health wBad).status = 500 :=
  ⟨((health_contract wOk).1.mpr ⟨rfl, rfl⟩).1,
   ((health_contract wBad).2.1 "boom" rfl).1⟩

/-- C4 counterexample: when the metadata query raises (e.g. a timeout),
`get_identity` returns the fixed sentinel, not a descriptor reporting the
project identifier, contradicting the claim that a failing metadata query
falls back to the project descriptor. -/
theorem get_identity_metadata_failure_counterexample :
    get_identity (Except.ok "demo-project") (Except.error "timeout")
      = "Unknown (Not properly authenticated)" ∧
    get_identity (Except.ok "demo-project") (Except.error "timeout")
      ≠ "Authenticated (Project: demo-project)" := by
  exact ⟨rfl, by decide⟩

/-- C4 amended: the identity resolver always returns a display string; it
returns the project descriptor only when the metadata query completes with a
non-success status; it returns the fixed sentinel both when client
initialization fails and when the metadata query raises. -/
theorem get_identity_total (identCtor : Except String String)
    (metadata : Except String (Nat × String)) :
    (∀ project status text, identCtor = Except.ok project →
      metadata = Except.ok (status, text) → status ≠ 200 →
      get_identity identCtor metadata
        = "Authenticated (Project: " ++ project ++ ")") ∧
    (∀ e, identCtor = Except.error e →
      get_identity identCtor metadata
        = "Unknown (Not properly authenticated)") ∧
    (∀ project e, identCtor = Except.ok project →
      metadata = Except.error e →
      get_identity identCtor metadata
        = "Unknown (Not properly authenticated)") := by
  refine ⟨?_, ?_, ?_⟩
  · intro project status text hc hm hs
    simp [get_identity, hc, hm, hs]
  · intro e hc
    simp [get_identity, hc]
  · intro project e hc hm
    simp [get_identity, hc, hm]

theorem get_identity_total_witness :
    get_identity (Except.ok "demo-project") (Except.ok (403, "forbidden"))
      = "Authenticated (Project: demo-project)" ∧
    get_identity (Except.error "no-creds") (Except.ok (200, "sa-demo"))
      = "Unknown (Not properly authenticated)" :=
  ⟨(get_identity_total (Except.ok "demo-project")
      (Except.ok (403, "forbidden"))).1 "demo-project" 403 "forbidden"
      rfl rfl (by decide),
   (get_identity_total (Except.error "no-creds")
      (Except.ok (200, "sa-demo"))).2.1 "no-creds" rfl⟩

/-- C7: a successful `/upload` of content under a key stores the content in
the bucket under the uploaded filename verbatim (overwriting any previous
binding), and a subsequent `/download` of that key against the post-upload
bucket returns 200 with a body containing the content byte-identically. -/
theorem upload_download_roundtrip (w : World) (req : Req)
    (fname content : String)
    (hfile : getFilePart req.files "file" = some (fname, content))
    (hfn : fname ≠ "") (hc : w.ctor = Except.ok ())
    (hup : w.uploadErr = none) :
    (upload_file w req).status = 200 ∧
    (upload_file w req).bucket = bucketStore w.bucket fname content ∧
    bucketGet (upload_file w req).bucket fname = some content ∧
    (∀ (w2 : World) (req2 : Req),
      w2.bucket = (upload_file w req).bucket →
      w2.ctor = Except.ok () → w2.existsErr = none → w2.downloadErr = none →
      getParam req2.args "filename" = some fname →
      (download_file w2 req2).status = 200 ∧
      ∃ pre post,
        (download_file w2 req2).body = Body.html (pre ++ content ++ post)) := by
  have hbuck : (upload_file w req).bucket = bucketStore w.bucket fname content := by
    simp [upload_file, hfile, hfn, hc, get_storage_client, hup]
  refine ⟨?_, hbuck, ?_, ?_⟩
  · simp [upload_file, hfile, hfn, hc, get_storage_client, hup]
  · rw [hbuck]; exact bucketGet_store_self w.bucket fname content
  · intro w2 req2 hb hc2 hex2 hdl2 hget2
    have hhas : bucketHas w2.bucket fname = true := by
      rw [hb, hbuck]
      simp [bucketHas, bucketGet_store_self]
    have hget : bucketGet w2.bucket fname = some content := by
      rw [hb, hbuck]; exact bucketGet_store_self w.bucket fname content
    refine ⟨?_, ?_⟩
    · simp [download_file, hget2, hfn, hc2, get_storage_client, hex2, hhas,
        hdl2]
    · refine ⟨"\n        <html>\n        <body>\n            <h2>File Content: "
        ++ fname ++ "</h2>\n            <pre>",
        "</pre>\n            <a href=\"/\">Back to Home</a>\n        </body>\n        </html>\n        ",
        ?_⟩
      simp [download_file, hget2, hfn, hc2, get_storage_client, hex2, hhas,
        hdl2, downloadPageHtml, hget]

/-- The multipart request of the round-trip witness. -/
def upReq : Req := ⟨[], [], [("file", "test-file.txt", "hello world")]⟩

/-- The download request of the round-trip witness. -/
def dlReqRt : Req := ⟨[("filename", "test-file.txt")], [], []⟩

/-- The healthy world whose bucket is the bucket left by the witness
upload. -/
def wAfterUpload : World := { wOk with bucket := (upload_file wOk upReq).bucket }

theorem upload_download_roundtrip_witness :
    (upload_file wOk upReq).status = 200 ∧
    (download_file wAfterUpload dlReqRt).status = 200 ∧
    ∃ pre post, (download_file wAfterUpload dlReqRt).body
      = Body.html (pre ++ "hello world" ++ post) := by
  have h := upload_download_roundtrip wOk upReq "test-file.txt" "hello world"
    (by decide) (by decide) rfl rfl
  have h2 := h.2.2.2 wAfterUpload dlReqRt rfl rfl rfl rfl (by decide)
  exact ⟨h.1, h2.1, h2.2⟩

/-- C8: for a key present in the bucket, a first `/delete` returns 200 and
removes the object, and a second `/delete` of the same key against the
resulting bucket returns exactly 404, not 200. -/
theorem delete_not_idempotent (w : World) (req : Req) (k : String)
    (hform : getParam req.form "filename" = some k) (hk : k ≠ "")
    (hc : w.ctor = Except.ok ()) (hex : w.existsErr = none)
    (hdel : w.deleteErr = none) (hin : bucketHas w.bucket k = true) :
    (delete_file w req).status = 200 ∧
    bucketHas (delete_file w req).bucket k = false ∧
    (∀ (w2 : World), w2.bucket = (delete_file w req).bucket →
      w2.ctor = Except.ok () → w2.existsErr = none →
      (delete_file w2 req).status = 404 ∧
      (delete_file w2 req).status ≠ 200) := by
  have hbuck : (delete_file w req).bucket = bucketDelete w.bucket k := by
    simp [delete_file, hform, hk, hc, get_storage_client, hex, hin, hdel]
  have habs : bucketHas (bucketDelete w.bucket k) k = false :=
    bucketHas_delete_self w.bucket k
  refine ⟨?_, ?_, ?_⟩
  · simp [delete_file, hform, hk, hc, get_storage_client, hex, hin, hdel]
  · rw [hbuck]; exact habs
  · intro w2 hb hc2 hex2
    have hhas2 : bucketHas w2.bucket k = false := by rw [hb, hbuck]; exact habs
    constructor
    · simp [delete_file, hform, hk, hc2, get_storage_client, hex2, hhas2]
    · simp [delete_file, hform, hk, hc2, get_storage_client, hex2, hhas2]

/-- The healthy world whose bucket is the bucket left by the witness
delete. -/
def wAfterDelete : World := { wOk with bucket := (delete_file wOk delReq).bucket }

theorem delete_not_idempotent_witness :
    (delete_file wOk delReq).status = 200 ∧
    (delete_file wAfterDelete delReq).status = 404 := by
  have h := delete_not_idempotent wOk delReq "a.txt" (by decide) (by decide)
    rfl rfl rfl (by decide)
  exact ⟨h.1, (h.2.2 wAfterDelete rfl rfl rfl).1⟩

end GcsDemo
